import Mathlib

/-!
# hyperistio: start-up orchestration

A shallow embedding of `tools/hyperistio/hyperistio.go`.

The program is a straight-line sequence of calls into external packages.
Each external call is recorded as an `Event` in a trace (with the arguments
the source passes), and its result is read from an `Outcomes` record, so
that every theorem quantifies over every possible result of every external
call.  A Go `error` result is `Option GoError` (`none` is `nil`).

A `go f(...)` statement is recorded at the point where the goroutine is
spawned; what the goroutine does afterwards runs concurrently and is not
part of the trace.  Panics inside external calls are not modelled.
-/

namespace Hyperistio

/-! ## Values -/

/-- A non-nil Go `error`. -/
structure GoError where
  msg : String
  deriving DecidableEq, Repr

/-- Go `time.Duration`: a count of nanoseconds (an `int64` in Go; every
value built here is below `2^63`, see `durations_fit_int64`). -/
abbrev Duration := Int

/-- Go `time.Millisecond`. -/
def Millisecond : Duration := 1000000

/-- Go `time.Second`. -/
def Second : Duration := 1000000000

/-- The protobuf `Duration` message. -/
structure ProtoDuration where
  Seconds : Int
  Nanos : Int
  deriving DecidableEq, Repr

/-- External library `ptypes.DurationProto`: whole seconds by truncating
division, the remainder as nanoseconds. -/
def DurationProto (d : Duration) : ProtoDuration :=
  let nanos := d
  let secs := Int.tdiv nanos 1000000000
  { Seconds := secs, Nanos := nanos - secs * 1000000000 }

/-- The fields of `meshconfig.ProxyConfig` that `startEnvoy` sets.  The three
durations are pointers in Go: `none` is the nil pointer (field not set). -/
structure ProxyConfig where
  DiscoveryAddress : String
  ConfigPath : String
  BinaryPath : String
  ServiceCluster : String
  CustomConfigFile : String
  DiscoveryRefreshDelay : Option ProtoDuration
  ConnectTimeout : Option ProtoDuration
  DrainDuration : Option ProtoDuration
  deriving DecidableEq, Repr

/-- The value of `model.DefaultMeshConfig()` as far as the program touches
it: the one field it overwrites, and the untouched remainder. -/
structure MeshConfig where
  ProxyHttpPort : Int
  rest : String
  deriving DecidableEq, Repr

/-- Go `envoy.DiscoveryServiceOptions` (the fields the program sets). -/
structure DiscoveryServiceOptions where
  Port : Int
  GrpcAddr : String
  EnableCaching : Bool
  EnableProfiling : Bool
  deriving DecidableEq, Repr

/-- Go `bootstrap.MeshArgs`. -/
structure MeshArgs where
  MixerAddress : String
  RdsRefreshDelay : Option ProtoDuration
  deriving DecidableEq, Repr

/-- Go `bootstrap.ConfigArgs` (the fields the program sets). -/
structure ConfigArgs where
  KubeConfig : String
  FileDir : String
  deriving DecidableEq, Repr

/-- Go `bootstrap.ServiceArgs`. -/
structure ServiceArgs where
  Registries : List String
  deriving DecidableEq, Repr

/-- Go `bootstrap.PilotArgs` (the fields the program sets). -/
structure PilotArgs where
  Namespace : String
  DiscoveryOptions : DiscoveryServiceOptions
  Mesh : MeshArgs
  Config : ConfigArgs
  Service : ServiceArgs
  MeshConfig : MeshConfig
  deriving DecidableEq, Repr

/-- An open `*os.File`, identified by the descriptor the system returned. -/
structure File where
  fd : Nat
  deriving DecidableEq, Repr

/-- The `io.Writer` handed to the proxy: the process's standard error, or a
file returned by `os.Create`. -/
inductive Writer where
  | stderr
  | file (f : File)
  deriving DecidableEq, Repr

/-- Constants and values of packages outside this file:
`util.IstioSrc`, `util.IstioOut`, `util.IstioBin`, the result of
`model.DefaultMeshConfig()` and the string `serviceregistry.MockRegistry`. -/
structure Ext where
  IstioSrc : String
  IstioOut : String
  IstioBin : String
  DefaultMeshConfig : MeshConfig
  MockRegistry : String
  deriving DecidableEq, Repr

/-- The process environment: `none` for a variable that is not set. -/
abbrev Env := String → Option String

/-- Go `os.Getenv`: the value, or the empty string when the variable is not
set. -/
def osGetenv (env : Env) (key : String) : String :=
  (env key).getD ""

/-- The results of the external calls of one run.  A call that returns
`(value, error)` is `Except`; `runProxy` is the result of `agent.RunProxy`,
which the program discards. -/
structure Outcomes where
  newServer : Except GoError Unit
  serverStart : Except GoError Unit
  newMixerServer : Except GoError Unit
  newHTTPServer : Except GoError Unit
  writeBootstrap : Except GoError String
  osCreate : Except GoError File
  runProxy : Except GoError Unit
  deriving Repr

/-! ## Events -/

/-- One observable action of the program, in source order of appearance. -/
inductive Event where
  /-- Go `flag.Parse()` -/
  | flagParse
  /-- Go `bootstrap.FilepathWalkInterval = d` -/
  | setFilepathWalkInterval (d : Duration)
  /-- Go `os.Getenv(key)` -/
  | getenv (key : String)
  /-- Go `log.Println(args...)` -/
  | logPrintln (args : List String)
  /-- Go `bootstrap.NewServer(args)` -/
  | newServer (args : PilotArgs)
  /-- Go `s.Start(stop)` on the discovery server -/
  | serverStart
  /-- Go `env.NewMixerServer(port, stress)` -/
  | newMixerServer (port : Int) (stress : Bool)
  /-- Go `srv.Start()` on the mixer server -/
  | mixerStart
  /-- Go `go func() { for { r := srv.GetReport(); fmt.Println(...) } }()` -/
  | goReportPrinter
  /-- Go `env.NewHTTPServer(port)` -/
  | newHTTPServer (port : Int)
  /-- Go `srv.Start()` on the HTTP test server -/
  | httpStart
  /-- Go `go util.RunHTTP(port, version)` -/
  | goRunHTTP (port : Int) (version : String)
  /-- Go `go util.RunGRPC(port, version, cert, key)` -/
  | goRunGRPC (port : Int) (version cert key : String)
  /-- Go `agent.WriteBootstrap(cfg, node, epoch, pilotSAN, nil)` -/
  | writeBootstrap (cfg : ProxyConfig) (node : String) (epoch : Int)
      (pilotSAN : List String)
  /-- Go `os.Create(path)` -/
  | osCreate (path : String)
  /-- Go `agent.RunProxy(cfg, node, epoch, configFname, stop, outWriter,
  errWriter, cliarg)` -/
  | runProxy (cfg : ProxyConfig) (node : String) (epoch : Int)
      (configFname : String) (outWriter errWriter : Writer)
      (cliarg : List String)
  /-- Go `log.Fatal(args...)`: the log line; the exit follows as `exit 1` -/
  | logFatal (args : List String)
  /-- Go `os.Exit(code)` -/
  | exit (code : Int)
  /-- Go `signal.Notify(sigs, signals...)` -/
  | signalNotify (signals : List String)
  /-- Go `<-sigs` -/
  | waitSignal
  deriving DecidableEq, Repr

abbrev Trace := List Event

/-! ## The program -/

/-- The `cfg` literal of `startEnvoy`. -/
def envoyConfig (x : Ext) : ProxyConfig :=
  { DiscoveryAddress := "localhost:8080"
    ConfigPath := x.IstioOut
    BinaryPath := x.IstioBin ++ "/envoy"
    ServiceCluster := "test"
    CustomConfigFile := x.IstioSrc ++ "/tools/deb/envoy_bootstrap_v2.json"
    DiscoveryRefreshDelay := some (DurationProto (10 * Second))
    ConnectTimeout := some (DurationProto (5 * Second))
    DrainDuration := some (DurationProto (30 * Second)) }

/-- Go `startEnvoy`. -/
def startEnvoy (x : Ext) (o : Outcomes) : Trace × Option GoError :=
  let cfg := envoyConfig x
  let t1 : Trace := [.writeBootstrap cfg "sidecar~127.0.0.2~a~a" 1 []]
  match o.writeBootstrap with
  | .error err => (t1, some err)
  | .ok cfgF =>
    let t2 := t1 ++ [.osCreate (x.IstioOut ++ "/envoy_hyperistio_sidecar.log")]
    let envoyLog : Writer :=
      match o.osCreate with
      | .error _ => Writer.stderr
      | .ok f => Writer.file f
    (t2 ++ [.runProxy cfg "node" 1 cfgF envoyLog envoyLog
              ["--disable-hot-restart"]], none)

/-- Go `startMixer`. -/
def startMixer (o : Outcomes) : Trace × Option GoError :=
  let t1 : Trace := [.newMixerServer 9091 false]
  match o.newMixerServer with
  | .error err => (t1, some err)
  | .ok _ => (t1 ++ [.mixerStart, .goReportPrinter], none)

/-- The `args` value `startPilot` has built when it calls
`bootstrap.NewServer`: the literal, then `args.Config.FileDir` from the
environment with the testdata fallback. -/
def pilotArgs (x : Ext) (env : Env) : PilotArgs :=
  let mcfg : MeshConfig := { x.DefaultMeshConfig with ProxyHttpPort := 15002 }
  let args : PilotArgs :=
    { Namespace := "testing"
      DiscoveryOptions :=
        { Port := 15007
          GrpcAddr := ":15010"
          EnableCaching := true
          EnableProfiling := true }
      Mesh :=
        { MixerAddress := "localhost:9091"
          RdsRefreshDelay := some (DurationProto (10 * Millisecond)) }
      Config :=
        { KubeConfig := x.IstioSrc ++ "/.circleci/config"
          FileDir := "" }
      Service := { Registries := [x.MockRegistry] }
      MeshConfig := mcfg }
  let args := { args with Config := { args.Config with
                  FileDir := osGetenv env "ISTIO_CONFIG" } }
  if args.Config.FileDir = "" then
    { args with Config := { args.Config with
        FileDir := x.IstioSrc ++ "/tests/testdata/config" } }
  else args

/-- Go `startPilot`. -/
def startPilot (x : Ext) (o : Outcomes) (env : Env) : Trace × Option GoError :=
  let args := pilotArgs x env
  let t1 : Trace :=
    [ .setFilepathWalkInterval (5 * Second)
    , .getenv "ISTIO_CONFIG"
    , .logPrintln ["Using mock configs: ", args.Config.FileDir]
    , .newServer args ]
  match o.newServer with
  | .error err => (t1, some err)
  | .ok _ =>
    match o.serverStart with
    | .error err => (t1 ++ [.serverStart], some err)
    | .ok _ => (t1 ++ [.serverStart], none)

/-- Go `startAll`; `runEnvoy` is the value of the `envoy` flag. -/
def startAll (x : Ext) (o : Outcomes) (env : Env) (runEnvoy : Bool) :
    Trace × Option GoError :=
  match startPilot x o env with
  | (tp, some err) => (tp, some err)
  | (tp, none) =>
    match startMixer o with
    | (tm, some err) => (tp ++ tm, some err)
    | (tm, none) =>
      let t3 := tp ++ tm ++ [.newHTTPServer 7070]
      match o.newHTTPServer with
      | .error err => (t3, some err)
      | .ok _ =>
        let t4 := t3 ++
          [ .httpStart
          , .goRunHTTP 7072 "v1"
          , .goRunGRPC 7073 "v1" "" ""
          , .goRunHTTP 7074 "v2"
          , .goRunGRPC 7075 "v2" "" "" ]
        if runEnvoy then
          match startEnvoy x o with
          | (te, some err) => (t4 ++ te, some err)
          | (te, none) => (t4 ++ te, none)
        else (t4, none)

/-- Go `main`, up to and including the wait for a signal.  `log.Fatal`
writes the line and calls `os.Exit(1)`. -/
def main (x : Ext) (o : Outcomes) (env : Env) (runEnvoy : Bool) : Trace :=
  match startAll x o env runEnvoy with
  | (t, some err) =>
    [.flagParse] ++ t ++ [.logFatal ["Failed to start ", err.msg], .exit 1]
  | (t, none) =>
    [.flagParse] ++ t ++ [.signalNotify ["SIGINT", "SIGTERM"], .waitSignal]

/-! ## Vocabulary of the specification -/

/-- The steps of `startAll`, and the orchestrator (`main`) itself. -/
inductive Step where
  | orchestrator
  | pilot
  | mixer
  | backends
  | envoy
  deriving DecidableEq, Repr

/-- Position of a step in the start-up sequence. -/
def Step.rank : Step → Nat
  | .orchestrator => 0
  | .pilot => 1
  | .mixer => 2
  | .backends => 3
  | .envoy => 4

/-- The step an event belongs to: the function of the source that makes the
call (`startPilot`, `startMixer`, the mock-backend block of `startAll`,
`startEnvoy`, or `main`). -/
def Event.step : Event → Step
  | .flagParse => .orchestrator
  | .setFilepathWalkInterval _ => .pilot
  | .getenv _ => .pilot
  | .logPrintln _ => .pilot
  | .newServer _ => .pilot
  | .serverStart => .pilot
  | .newMixerServer _ _ => .mixer
  | .mixerStart => .mixer
  | .goReportPrinter => .mixer
  | .newHTTPServer _ => .backends
  | .httpStart => .backends
  | .goRunHTTP _ _ => .backends
  | .goRunGRPC _ _ _ _ => .backends
  | .writeBootstrap _ _ _ _ => .envoy
  | .osCreate _ => .envoy
  | .runProxy _ _ _ _ _ _ _ => .envoy
  | .logFatal _ => .orchestrator
  | .exit _ => .orchestrator
  | .signalNotify _ => .orchestrator
  | .waitSignal => .orchestrator

/-- A component the harness starts. -/
inductive Component where
  | discovery
  | policy
  | backend (port : Int)
  | proxy
  deriving DecidableEq, Repr

/-- The component an event starts, for the events that start one. -/
def Event.starts : Event → Option Component
  | .serverStart => some .discovery
  | .mixerStart => some .policy
  | .httpStart => some (.backend 7070)
  | .goRunHTTP port _ => some (.backend port)
  | .goRunGRPC port _ _ _ => some (.backend port)
  | .runProxy _ _ _ _ _ _ _ => some .proxy
  | _ => none

/-- The event is a bootstrap write, a log-file creation or a proxy spawn. -/
def Event.isProxyCall : Event → Bool
  | .writeBootstrap _ _ _ _ => true
  | .osCreate _ => true
  | .runProxy _ _ _ _ _ _ _ => true
  | _ => false

/-- The event is a call of `agent.RunProxy`. -/
def Event.isRunProxy : Event → Bool
  | .runProxy _ _ _ _ _ _ _ => true
  | _ => false

/-- The event is a call of `os.Create`. -/
def Event.isCreate : Event → Bool
  | .osCreate _ => true
  | _ => false

/-- The proxy configuration an event hands to an external call. -/
def Event.proxyConfig : Event → Option ProxyConfig
  | .writeBootstrap cfg _ _ _ => some cfg
  | .runProxy cfg _ _ _ _ _ _ => some cfg
  | _ => none

/-- The proxy configuration handed to `agent.WriteBootstrap`. -/
def Event.bootstrapConfig : Event → Option ProxyConfig
  | .writeBootstrap cfg _ _ _ => some cfg
  | _ => none

/-- The arguments handed to `bootstrap.NewServer`. -/
def Event.serverArgs : Event → Option PilotArgs
  | .newServer args => some args
  | _ => none

/-- The port handed to `env.NewMixerServer`. -/
def Event.mixerPort : Event → Option Int
  | .newMixerServer port _ => some port
  | _ => none

/-- The event writes a line to the log (package `log`). -/
def Event.writesLog : Event → Bool
  | .logPrintln _ => true
  | .logFatal _ => true
  | _ => false

/-- What an event puts on the process's output: a line on the log, or the
start of the goroutine that prints every mixer report on standard output. -/
inductive Output where
  | logLine (args : List String)
  | stdoutPrinter
  deriving DecidableEq, Repr

/-- The output of an event: `log.Println` and `log.Fatal` write a log line,
and the goroutine spawned by `startMixer` runs `fmt.Println` in a loop. -/
def Event.output : Event → Option Output
  | .logPrintln args => some (.logLine args)
  | .logFatal args => some (.logLine args)
  | .goReportPrinter => some .stdoutPrinter
  | _ => none

/-- The exit status an event ends the process with. -/
def Event.exitCode : Event → Option Int
  | .exit code => some code
  | _ => none

/-- A run is silent: nothing is written to the log and nothing writes to
standard output. -/
def silent (t : Trace) : Prop :=
  t.filterMap Event.output = []

instance (t : Trace) : Decidable (silent t) :=
  inferInstanceAs (Decidable (t.filterMap Event.output = []))

/-- Success of a call that returns `(value, error)`. -/
def succeeded {α : Type} : Except GoError α → Bool
  | .ok _ => true
  | .error _ => false

/-- Every external call of the run succeeds. -/
def Outcomes.allSucceed (o : Outcomes) : Bool :=
  succeeded o.newServer && succeeded o.serverStart &&
  succeeded o.newMixerServer && succeeded o.newHTTPServer &&
  succeeded o.writeBootstrap && succeeded o.osCreate && succeeded o.runProxy

/-- No event of the trace belongs to a step after `s`. -/
def noneAfter (s : Step) (t : Trace) : Prop :=
  ∀ ev ∈ t, ev.step.rank ≤ s.rank

instance (s : Step) (t : Trace) : Decidable (noneAfter s t) :=
  inferInstanceAs (Decidable (∀ ev ∈ t, ev.step.rank ≤ s.rank))

/-- A duration field is set (non-nil) and is not the zero duration. -/
def setAndNonZero : Option ProtoDuration → Bool
  | some d => decide (d.Seconds ≠ 0) || decide (d.Nanos ≠ 0)
  | none => false

/-- The configuration directories handed to `bootstrap.NewServer` in a trace,
one per call. -/
def fileDirs (t : Trace) : List String :=
  (t.filterMap Event.serverArgs).map (fun args => args.Config.FileDir)

/-- Split the characters of a `host:port` address at its last colon. -/
def splitLastColon : List Char → Option (List Char × List Char)
  | [] => none
  | c :: cs =>
    match splitLastColon cs with
    | some (host, port) => some (c :: host, port)
    | none => if c = ':' then some ([], cs) else none

/-- The value of a decimal digit. -/
def digitValue (c : Char) : Option Nat :=
  if 48 ≤ c.toNat ∧ c.toNat ≤ 57 then some (c.toNat - 48) else none

/-- Read a non-empty string of decimal digits. -/
def parseDecimal (cs : List Char) : Option Nat :=
  match cs with
  | [] => none
  | _ => cs.foldl
      (fun acc c => acc.bind fun n => (digitValue c).map fun d => 10 * n + d)
      (some 0)

/-- The host part of a `host:port` address. -/
def addrHost (addr : String) : Option String :=
  (splitLastColon addr.data).map fun hp => String.mk hp.1

/-- The port number of a `host:port` address. -/
def addrPort (addr : String) : Option Nat :=
  (splitLastColon addr.data).bind fun hp => parseDecimal hp.2

/-- The proxy's discovery address points at the discovery service started
with `args` on the local host: the host is `localhost` and the port is the
HTTP `Port` of the discovery options or the port of their `GrpcAddr`. -/
def pointsAtDiscovery (cfg : ProxyConfig) (args : PilotArgs) : Bool :=
  addrHost cfg.DiscoveryAddress == some "localhost" &&
  match addrPort cfg.DiscoveryAddress with
  | some p =>
    (p : Int) == args.DiscoveryOptions.Port ||
      addrPort args.DiscoveryOptions.GrpcAddr == some p
  | none => false

/-- In a trace, every discovery address written to a proxy bootstrap points
at every discovery service started. -/
def discoveryAddressMatches (t : Trace) : Prop :=
  ∀ cfg ∈ t.filterMap Event.bootstrapConfig,
    ∀ args ∈ t.filterMap Event.serverArgs, pointsAtDiscovery cfg args = true

instance (t : Trace) : Decidable (discoveryAddressMatches t) :=
  inferInstanceAs (Decidable (∀ cfg ∈ t.filterMap Event.bootstrapConfig,
    ∀ args ∈ t.filterMap Event.serverArgs, pointsAtDiscovery cfg args = true))

/-! ## Concrete inputs used to instantiate the theorems -/

/-- A build environment. -/
def sampleExt : Ext :=
  { IstioSrc := "/go/src/istio.io/istio"
    IstioOut := "/go/out"
    IstioBin := "/go/bin"
    DefaultMeshConfig := { ProxyHttpPort := 0, rest := "defaults" }
    MockRegistry := "Mock" }

/-- A run in which every external call succeeds. -/
def okOutcomes : Outcomes :=
  { newServer := .ok ()
    serverStart := .ok ()
    newMixerServer := .ok ()
    newHTTPServer := .ok ()
    writeBootstrap := .ok "/go/out/envoy-rev1.json"
    osCreate := .ok { fd := 3 }
    runProxy := .ok () }

/-- The error value used in the failing runs below. -/
def sampleError : GoError := { msg := "listen tcp :15007: address in use" }

/-- A run in which `bootstrap.NewServer` fails. -/
def newServerFails : Outcomes := { okOutcomes with newServer := .error sampleError }

/-- A run in which `Server.Start` fails. -/
def serverStartFails : Outcomes := { okOutcomes with serverStart := .error sampleError }

/-- A run in which `env.NewMixerServer` fails. -/
def newMixerServerFails : Outcomes :=
  { okOutcomes with newMixerServer := .error sampleError }

/-- A run in which `env.NewHTTPServer` fails. -/
def newHTTPServerFails : Outcomes :=
  { okOutcomes with newHTTPServer := .error sampleError }

/-- A run in which `agent.WriteBootstrap` fails. -/
def writeBootstrapFails : Outcomes :=
  { okOutcomes with writeBootstrap := .error sampleError }

/-- A run in which `os.Create` fails. -/
def osCreateFails : Outcomes := { okOutcomes with osCreate := .error sampleError }

/-- The environment with no variable set. -/
def emptyEnv : Env := fun _ => none

/-- The environment in which only `ISTIO_CONFIG` is set, to `v`. -/
def configEnv (v : String) : Env :=
  fun key => if key = "ISTIO_CONFIG" then some v else none

/-! ## Theorems -/

/-- C1: whatever the external calls return, when a step of `startAll` fails
(the discovery service through `bootstrap.NewServer` or `Server.Start`, the
policy server through `env.NewMixerServer`, the mock backends through
`env.NewHTTPServer(7070)`, or the proxy through `agent.WriteBootstrap`) while
the calls before it succeeded, `startAll` returns exactly that error and the
failing call is the last call it makes: the trace is exactly the calls up to
and including the failing one, so nothing of the failing step after that
call and nothing of a later step is attempted; a failed discovery service
leaves only discovery-service calls in the trace, and a failed bootstrap
write leaves neither a log-file creation nor a proxy spawn. -/
theorem startAll_returns_first_failure (x : Ext) (o : Outcomes) (env : Env)
    (runEnvoy : Bool) (e : GoError) :
    (o.newServer = .error e →
      (startAll x o env runEnvoy).2 = some e ∧
      noneAfter .pilot (startAll x o env runEnvoy).1 ∧
      (startAll x o env runEnvoy).1 =
        [ .setFilepathWalkInterval (5 * Second)
        , .getenv "ISTIO_CONFIG"
        , .logPrintln ["Using mock configs: ", (pilotArgs x env).Config.FileDir]
        , .newServer (pilotArgs x env) ]) ∧
    (succeeded o.newServer = true → o.serverStart = .error e →
      (startAll x o env runEnvoy).2 = some e ∧
      noneAfter .pilot (startAll x o env runEnvoy).1 ∧
      (startAll x o env runEnvoy).1 =
        [ .setFilepathWalkInterval (5 * Second)
        , .getenv "ISTIO_CONFIG"
        , .logPrintln ["Using mock configs: ", (pilotArgs x env).Config.FileDir]
        , .newServer (pilotArgs x env)
        , .serverStart ]) ∧
    (succeeded o.newServer = true → succeeded o.serverStart = true →
      o.newMixerServer = .error e →
      (startAll x o env runEnvoy).2 = some e ∧
      noneAfter .mixer (startAll x o env runEnvoy).1 ∧
      (startAll x o env runEnvoy).1 =
        [ .setFilepathWalkInterval (5 * Second)
        , .getenv "ISTIO_CONFIG"
        , .logPrintln ["Using mock configs: ", (pilotArgs x env).Config.FileDir]
        , .newServer (pilotArgs x env)
        , .serverStart
        , .newMixerServer 9091 false ]) ∧
    (succeeded o.newServer = true → succeeded o.serverStart = true →
      succeeded o.newMixerServer = true → o.newHTTPServer = .error e →
      (startAll x o env runEnvoy).2 = some e ∧
      noneAfter .backends (startAll x o env runEnvoy).1 ∧
      (startAll x o env runEnvoy).1 =
        [ .setFilepathWalkInterval (5 * Second)
        , .getenv "ISTIO_CONFIG"
        , .logPrintln ["Using mock configs: ", (pilotArgs x env).Config.FileDir]
        , .newServer (pilotArgs x env)
        , .serverStart
        , .newMixerServer 9091 false
        , .mixerStart
        , .goReportPrinter
        , .newHTTPServer 7070 ]) ∧
    (succeeded o.newServer = true → succeeded o.serverStart = true →
      succeeded o.newMixerServer = true → succeeded o.newHTTPServer = true →
      runEnvoy = true → o.writeBootstrap = .error e →
      (startAll x o env runEnvoy).2 = some e ∧
      noneAfter .envoy (startAll x o env runEnvoy).1 ∧
      (startAll x o env runEnvoy).1.filter
        (fun ev => ev.isCreate || ev.isRunProxy) = [] ∧
      (startAll x o env runEnvoy).1 =
        [ .setFilepathWalkInterval (5 * Second)
        , .getenv "ISTIO_CONFIG"
        , .logPrintln ["Using mock configs: ", (pilotArgs x env).Config.FileDir]
        , .newServer (pilotArgs x env)
        , .serverStart
        , .newMixerServer 9091 false
        , .mixerStart
        , .goReportPrinter
        , .newHTTPServer 7070
        , .httpStart
        , .goRunHTTP 7072 "v1"
        , .goRunGRPC 7073 "v1" "" ""
        , .goRunHTTP 7074 "v2"
        , .goRunGRPC 7075 "v2" "" ""
        , .writeBootstrap (envoyConfig x) "sidecar~127.0.0.2~a~a" 1 [] ]) := by
  obtain ⟨ns, ss, nm, nh, wb, oc, rp⟩ := o
  refine ⟨?_, ?_, ?_, ?_, ?_⟩
  · intro h
    simp only at h
    subst h
    simp [startAll, startPilot, noneAfter, Event.step, Step.rank]
  · intro h1 h
    simp only at h h1
    subst h
    cases ns <;>
      simp_all [startAll, startPilot, noneAfter, Event.step, Step.rank, succeeded]
  · intro h1 h2 h
    simp only at h h1 h2
    subst h
    cases ns <;> cases ss <;>
      simp_all [startAll, startPilot, startMixer, noneAfter, Event.step,
        Step.rank, succeeded]
  · intro h1 h2 h3 h
    simp only at h h1 h2 h3
    subst h
    cases ns <;> cases ss <;> cases nm <;>
      simp_all [startAll, startPilot, startMixer, noneAfter, Event.step,
        Step.rank, succeeded]
  · intro h1 h2 h3 h4 hf h
    simp only at h h1 h2 h3 h4
    subst h hf
    cases ns <;> cases ss <;> cases nm <;> cases nh <;>
      simp_all [startAll, startPilot, startMixer, startEnvoy, noneAfter,
        Event.step, Step.rank, succeeded, Event.isCreate, Event.isRunProxy]

/-- C1 at five concrete runs, one per failing call: the error is returned
and the failing call is the last event of the trace. -/
theorem startAll_returns_first_failure_witness :
    ((startAll sampleExt newServerFails emptyEnv true).2 = some sampleError ∧
      (startAll sampleExt newServerFails emptyEnv true).1.getLast? =
        some (.newServer (pilotArgs sampleExt emptyEnv))) ∧
    ((startAll sampleExt serverStartFails emptyEnv true).2 = some sampleError ∧
      (startAll sampleExt serverStartFails emptyEnv true).1.getLast? =
        some .serverStart) ∧
    ((startAll sampleExt newMixerServerFails emptyEnv true).2 = some sampleError ∧
      (startAll sampleExt newMixerServerFails emptyEnv true).1.getLast? =
        some (.newMixerServer 9091 false)) ∧
    ((startAll sampleExt newHTTPServerFails emptyEnv true).2 = some sampleError ∧
      (startAll sampleExt newHTTPServerFails emptyEnv true).1.getLast? =
        some (.newHTTPServer 7070)) ∧
    ((startAll sampleExt writeBootstrapFails emptyEnv true).2 = some sampleError ∧
      (startAll sampleExt writeBootstrapFails emptyEnv true).1.getLast? =
        some (.writeBootstrap (envoyConfig sampleExt) "sidecar~127.0.0.2~a~a"
          1 [])) :=
  ⟨⟨((startAll_returns_first_failure sampleExt newServerFails emptyEnv true
        sampleError).1 rfl).1,
    by rw [((startAll_returns_first_failure sampleExt newServerFails emptyEnv
        true sampleError).1 rfl).2.2]; rfl⟩,
   ⟨((startAll_returns_first_failure sampleExt serverStartFails emptyEnv true
        sampleError).2.1 rfl rfl).1,
    by rw [((startAll_returns_first_failure sampleExt serverStartFails emptyEnv
        true sampleError).2.1 rfl rfl).2.2]; rfl⟩,
   ⟨((startAll_returns_first_failure sampleExt newMixerServerFails emptyEnv true
        sampleError).2.2.1 rfl rfl rfl).1,
    by rw [((startAll_returns_first_failure sampleExt newMixerServerFails
        emptyEnv true sampleError).2.2.1 rfl rfl rfl).2.2]; rfl⟩,
   ⟨((startAll_returns_first_failure sampleExt newHTTPServerFails emptyEnv true
        sampleError).2.2.2.1 rfl rfl rfl rfl).1,
    by rw [((startAll_returns_first_failure sampleExt newHTTPServerFails
        emptyEnv true sampleError).2.2.2.1 rfl rfl rfl rfl).2.2]; rfl⟩,
   ⟨((startAll_returns_first_failure sampleExt writeBootstrapFails emptyEnv true
        sampleError).2.2.2.2 rfl rfl rfl rfl rfl rfl).1,
    by rw [((startAll_returns_first_failure sampleExt writeBootstrapFails
        emptyEnv true sampleError).2.2.2.2 rfl rfl rfl rfl rfl rfl).2.2.2]; rfl⟩⟩

/-- C2: in every run of `startAll` in which every external call succeeds,
the components are started in the order discovery service, policy server,
mock backends on 7070, 7072, 7073, 7074 and 7075, and then the proxy exactly
when the envoy flag is true; no event of a later step precedes an event of
an earlier one; and `startAll` returns no error. -/
theorem startAll_success_order (x : Ext) (o : Outcomes) (env : Env)
    (runEnvoy : Bool) (h : o.allSucceed = true) :
    (startAll x o env runEnvoy).2 = none ∧
    (startAll x o env runEnvoy).1.filterMap Event.starts =
      [.discovery, .policy, .backend 7070, .backend 7072, .backend 7073,
        .backend 7074, .backend 7075] ++
        (if runEnvoy = true then [Component.proxy] else []) ∧
    ((startAll x o env runEnvoy).1.map Event.step).Pairwise
      (fun a b => a.rank ≤ b.rank) ∧
    (Step.envoy ∈ (startAll x o env runEnvoy).1.map Event.step ↔
      runEnvoy = true) := by
  obtain ⟨ns, ss, nm, nh, wb, oc, rp⟩ := o
  cases ns <;> cases ss <;> cases nm <;> cases nh <;> cases wb <;>
    cases oc <;> cases rp <;> simp [Outcomes.allSucceed, succeeded] at h
  cases runEnvoy <;>
    simp [startAll, startPilot, startMixer, startEnvoy, Event.starts,
      Event.step, Step.rank]

/-- C2 at the run in which every call succeeds and the proxy is enabled. -/
theorem startAll_success_order_witness :
    okOutcomes.allSucceed = true ∧
    (startAll sampleExt okOutcomes emptyEnv true).2 = none ∧
    (startAll sampleExt okOutcomes emptyEnv true).1.filterMap Event.starts =
      [.discovery, .policy, .backend 7070, .backend 7072, .backend 7073,
        .backend 7074, .backend 7075, .proxy] :=
  ⟨rfl, (startAll_success_order sampleExt okOutcomes emptyEnv true rfl).1,
    (startAll_success_order sampleExt okOutcomes emptyEnv true rfl).2.1⟩

/-- With the envoy flag false no event of `startAll` is a proxy call. -/
theorem startAll_false_no_proxy_call (x : Ext) (o : Outcomes) (env : Env) :
    ∀ ev ∈ (startAll x o env false).1, ev.isProxyCall = false := by
  obtain ⟨ns, ss, nm, nh, wb, oc, rp⟩ := o
  cases ns <;> cases ss <;> cases nm <;> cases nh <;> cases wb <;>
    simp [startAll, startPilot, startMixer, startEnvoy, Event.isProxyCall]

/-- The trace with the envoy flag false is the trace with the flag true
without the events of the proxy step. -/
theorem startAll_false_eq_filter (x : Ext) (o : Outcomes) (env : Env) :
    (startAll x o env false).1 =
      (startAll x o env true).1.filter (fun ev => decide (ev.step ≠ .envoy)) := by
  obtain ⟨ns, ss, nm, nh, wb, oc, rp⟩ := o
  cases ns <;> cases ss <;> cases nm <;> cases nh <;> cases wb <;>
    simp [startAll, startPilot, startMixer, startEnvoy, Event.step]

/-- In a trace of `startAll` the events of the proxy step are the proxy
calls. -/
theorem startAll_envoy_step_iff (x : Ext) (o : Outcomes) (env : Env) :
    ∀ ev ∈ (startAll x o env true).1,
      ev.step = .envoy ↔ ev.isProxyCall = true := by
  obtain ⟨ns, ss, nm, nh, wb, oc, rp⟩ := o
  cases ns <;> cases ss <;> cases nm <;> cases nh <;> cases wb <;>
    simp [startAll, startPilot, startMixer, startEnvoy, Event.isProxyCall,
      Event.step]

/-- C3: whatever the external calls return, with the envoy flag false the
trace of `startAll` holds no bootstrap write, no creation of the proxy log
file and no proxy spawn, and it is exactly the trace of the run with the
flag true with the events of the proxy step removed, in the same order. -/
theorem startAll_envoy_disabled (x : Ext) (o : Outcomes) (env : Env) :
    (∀ ev ∈ (startAll x o env false).1, ev.isProxyCall = false) ∧
    (startAll x o env false).1 =
      (startAll x o env true).1.filter (fun ev => decide (ev.step ≠ .envoy)) ∧
    (∀ ev ∈ (startAll x o env true).1,
      ev.step = .envoy ↔ ev.isProxyCall = true) := by
  exact ⟨startAll_false_no_proxy_call x o env, startAll_false_eq_filter x o env,
    startAll_envoy_step_iff x o env⟩

/-- The three durations of `startEnvoy` as protobuf values. -/
theorem durationProto_values :
    DurationProto (10 * Second) = { Seconds := 10, Nanos := 0 } ∧
    DurationProto (5 * Second) = { Seconds := 5, Nanos := 0 } ∧
    DurationProto (30 * Second) = { Seconds := 30, Nanos := 0 } := by
  decide

/-- Every `time.Duration` the program builds fits the `int64` Go uses, so
the products do not wrap. -/
theorem durations_fit_int64 :
    10 * Second < 2 ^ 63 ∧ 5 * Second < 2 ^ 63 ∧ 30 * Second < 2 ^ 63 ∧
    10 * Millisecond < 2 ^ 63 := by
  decide

/-- Every proxy configuration in a trace of `startEnvoy` is the `cfg`
literal. -/
theorem startEnvoy_proxyConfig (x : Ext) (o : Outcomes) :
    ∀ ev ∈ (startEnvoy x o).1, ∀ cfg, ev.proxyConfig = some cfg →
      cfg = envoyConfig x := by
  obtain ⟨ns, ss, nm, nh, wb, oc, rp⟩ := o
  cases wb <;> simp [startEnvoy, Event.proxyConfig]

/-- The events of `startAll` that carry a proxy configuration are events of
`startEnvoy`. -/
theorem startAll_proxyConfig_mem (x : Ext) (o : Outcomes) (env : Env)
    (runEnvoy : Bool) :
    ∀ ev ∈ (startAll x o env runEnvoy).1, ev.proxyConfig ≠ none →
      ev ∈ (startEnvoy x o).1 := by
  obtain ⟨ns, ss, nm, nh, wb, oc, rp⟩ := o
  cases ns <;> cases ss <;> cases nm <;> cases nh <;> cases runEnvoy <;>
    simp [startAll, startPilot, startMixer, Event.proxyConfig]
  all_goals
    intro ev hev hne
    generalize startEnvoy x _ = r at hev ⊢
    obtain ⟨te, _ | err⟩ := r <;> simp at hev ⊢ <;>
      rcases hev with rfl | rfl | rfl | rfl | rfl | rfl | rfl | rfl | rfl |
        rfl | rfl | rfl | rfl | rfl | h <;>
      simp_all [Event.proxyConfig]

/-- C4: whatever the build constants, the results of the external calls, the
environment and the envoy flag, every proxy configuration that `startEnvoy`
(alone or inside `startAll`) hands to `agent.WriteBootstrap` or
`agent.RunProxy` has `DiscoveryRefreshDelay` of 10 seconds, `ConnectTimeout`
of 5 seconds and `DrainDuration` of 30 seconds, each set and non-zero; and
`startEnvoy` always makes the bootstrap write with such a configuration. -/
theorem startEnvoy_durations_fixed (x : Ext) (o : Outcomes) (env : Env)
    (runEnvoy : Bool) :
    (∀ t ∈ [(startEnvoy x o).1, (startAll x o env runEnvoy).1],
      ∀ ev ∈ t, ∀ cfg, ev.proxyConfig = some cfg →
        cfg.DiscoveryRefreshDelay = some { Seconds := 10, Nanos := 0 } ∧
        cfg.ConnectTimeout = some { Seconds := 5, Nanos := 0 } ∧
        cfg.DrainDuration = some { Seconds := 30, Nanos := 0 } ∧
        setAndNonZero cfg.DiscoveryRefreshDelay = true ∧
        setAndNonZero cfg.ConnectTimeout = true ∧
        setAndNonZero cfg.DrainDuration = true) ∧
    (∃ cfg, (startEnvoy x o).1.head? =
        some (.writeBootstrap cfg "sidecar~127.0.0.2~a~a" 1 []) ∧
      setAndNonZero cfg.DiscoveryRefreshDelay = true ∧
      setAndNonZero cfg.ConnectTimeout = true ∧
      setAndNonZero cfg.DrainDuration = true) := by
  obtain ⟨h10, h5, h30⟩ := durationProto_values
  have key : ∀ cfg, cfg = envoyConfig x →
      cfg.DiscoveryRefreshDelay = some { Seconds := 10, Nanos := 0 } ∧
      cfg.ConnectTimeout = some { Seconds := 5, Nanos := 0 } ∧
      cfg.DrainDuration = some { Seconds := 30, Nanos := 0 } ∧
      setAndNonZero cfg.DiscoveryRefreshDelay = true ∧
      setAndNonZero cfg.ConnectTimeout = true ∧
      setAndNonZero cfg.DrainDuration = true := by
    intro cfg hcfg
    subst hcfg
    simp [envoyConfig, h10, h5, h30, setAndNonZero]
  have hE := startEnvoy_proxyConfig x o
  have hA : ∀ ev ∈ (startAll x o env runEnvoy).1, ∀ cfg,
      ev.proxyConfig = some cfg → cfg = envoyConfig x := by
    intro ev hev cfg hc
    exact startEnvoy_proxyConfig x o ev
      (startAll_proxyConfig_mem x o env runEnvoy ev hev (by simp [hc])) cfg hc
  refine ⟨?_, ?_⟩
  · intro t ht ev hev cfg hc
    simp only [List.mem_cons, List.mem_singleton, List.not_mem_nil, or_false] at ht
    rcases ht with rfl | rfl
    · exact key cfg (hE ev hev cfg hc)
    · exact key cfg (hA ev hev cfg hc)
  · refine ⟨envoyConfig x, ?_, (key _ rfl).2.2.2⟩
    obtain ⟨ns, ss, nm, nh, wb, oc, rp⟩ := o
    cases wb <;> simp [startEnvoy]

/-- C5: when `agent.WriteBootstrap` succeeds, `startEnvoy` returns no error
and calls `agent.RunProxy` exactly once, whatever `os.Create` and
`agent.RunProxy` return: with the process's standard error as both the
stdout and the stderr writer when creating the log file failed, and with the
created file as both writers when it succeeded. -/
theorem startEnvoy_log_fallback (x : Ext) (o : Outcomes) (cfgF : String)
    (hwb : o.writeBootstrap = .ok cfgF) :
    (startEnvoy x o).2 = none ∧
    (∀ e, o.osCreate = .error e →
      (startEnvoy x o).1.filter Event.isRunProxy =
        [.runProxy (envoyConfig x) "node" 1 cfgF .stderr .stderr
          ["--disable-hot-restart"]]) ∧
    (∀ f, o.osCreate = .ok f →
      (startEnvoy x o).1.filter Event.isRunProxy =
        [.runProxy (envoyConfig x) "node" 1 cfgF (.file f) (.file f)
          ["--disable-hot-restart"]]) ∧
    (startEnvoy x o).1.filter Event.isCreate =
      [.osCreate (x.IstioOut ++ "/envoy_hyperistio_sidecar.log")] := by
  obtain ⟨ns, ss, nm, nh, wb, oc, rp⟩ := o
  simp only at hwb
  subst hwb
  cases oc <;> simp [startEnvoy, Event.isRunProxy, Event.isCreate]

/-- C5 at a run in which the log file cannot be created. -/
theorem startEnvoy_log_fallback_witness :
    (startEnvoy sampleExt osCreateFails).2 = none ∧
    (startEnvoy sampleExt osCreateFails).1.filter Event.isRunProxy =
      [.runProxy (envoyConfig sampleExt) "node" 1 "/go/out/envoy-rev1.json"
        .stderr .stderr ["--disable-hot-restart"]] :=
  ⟨(startEnvoy_log_fallback sampleExt osCreateFails "/go/out/envoy-rev1.json"
      rfl).1,
   (startEnvoy_log_fallback sampleExt osCreateFails "/go/out/envoy-rev1.json"
      rfl).2.1 sampleError rfl⟩

/-- C6: when `agent.WriteBootstrap` returns the error `e`, `startEnvoy`
returns `e` and its trace holds neither a creation of the log file nor a
call of `agent.RunProxy`; and `startAll`, with the envoy flag true and every
earlier step successful, returns the same `e`. -/
theorem writeBootstrap_error_propagates (x : Ext) (o : Outcomes) (env : Env)
    (e : GoError) (hwb : o.writeBootstrap = .error e) :
    (startEnvoy x o).2 = some e ∧
    (startEnvoy x o).1.filter (fun ev => ev.isCreate || ev.isRunProxy) = [] ∧
    (succeeded o.newServer = true → succeeded o.serverStart = true →
      succeeded o.newMixerServer = true → succeeded o.newHTTPServer = true →
      (startAll x o env true).2 = some e) := by
  obtain ⟨ns, ss, nm, nh, wb, oc, rp⟩ := o
  simp only at hwb
  subst hwb
  refine ⟨by simp [startEnvoy], by simp [startEnvoy, Event.isCreate,
    Event.isRunProxy], ?_⟩
  cases ns <;> cases ss <;> cases nm <;> cases nh <;>
    simp [succeeded, startAll, startPilot, startMixer, startEnvoy]

/-- C6 at a run in which only the bootstrap write fails. -/
theorem writeBootstrap_error_propagates_witness :
    (startEnvoy sampleExt writeBootstrapFails).2 = some sampleError ∧
    (startEnvoy sampleExt writeBootstrapFails).1.filter
      (fun ev => ev.isCreate || ev.isRunProxy) = [] ∧
    (startAll sampleExt writeBootstrapFails emptyEnv true).2 = some sampleError :=
  ⟨(writeBootstrap_error_propagates sampleExt writeBootstrapFails emptyEnv
      sampleError rfl).1,
   (writeBootstrap_error_propagates sampleExt writeBootstrapFails emptyEnv
      sampleError rfl).2.1,
   (writeBootstrap_error_propagates sampleExt writeBootstrapFails emptyEnv
      sampleError rfl).2.2 rfl rfl rfl rfl⟩

/-- C7: for every value of `ISTIO_CONFIG`, `startPilot` calls
`bootstrap.NewServer` exactly once, and the `Config.FileDir` it passes is the
value of the variable when that is set and non-empty, and
`util.IstioSrc + "/tests/testdata/config"` when the variable is unset or set
to the empty string. -/
theorem startPilot_config_dir (x : Ext) (o : Outcomes) (env : Env) :
    (∀ v, env "ISTIO_CONFIG" = some v → v ≠ "" →
      fileDirs (startPilot x o env).1 = [v]) ∧
    (env "ISTIO_CONFIG" = none →
      fileDirs (startPilot x o env).1 =
        [x.IstioSrc ++ "/tests/testdata/config"]) ∧
    (env "ISTIO_CONFIG" = some "" →
      fileDirs (startPilot x o env).1 =
        [x.IstioSrc ++ "/tests/testdata/config"]) := by
  obtain ⟨ns, ss, nm, nh, wb, oc, rp⟩ := o
  refine ⟨?_, ?_, ?_⟩
  · intro v hv hne
    cases ns <;> cases ss <;>
      simp [startPilot, fileDirs, Event.serverArgs, pilotArgs, osGetenv, hv, hne]
  · intro hv
    cases ns <;> cases ss <;>
      simp [startPilot, fileDirs, Event.serverArgs, pilotArgs, osGetenv, hv]
  · intro hv
    cases ns <;> cases ss <;>
      simp [startPilot, fileDirs, Event.serverArgs, pilotArgs, osGetenv, hv]

/-- C7 at three environments: the variable set to a directory, not set, and
set to the empty string. -/
theorem startPilot_config_dir_witness :
    fileDirs (startPilot sampleExt okOutcomes (configEnv "/etc/istio/config")).1 =
      ["/etc/istio/config"] ∧
    fileDirs (startPilot sampleExt okOutcomes emptyEnv).1 =
      [sampleExt.IstioSrc ++ "/tests/testdata/config"] ∧
    fileDirs (startPilot sampleExt okOutcomes (configEnv "")).1 =
      [sampleExt.IstioSrc ++ "/tests/testdata/config"] :=
  ⟨(startPilot_config_dir sampleExt okOutcomes (configEnv "/etc/istio/config")).1
      "/etc/istio/config" (by decide) (by decide),
   (startPilot_config_dir sampleExt okOutcomes emptyEnv).2.1 rfl,
   (startPilot_config_dir sampleExt okOutcomes (configEnv "")).2.2 (by decide)⟩

/-- C8, as stated, fails: in the run in which every external call succeeds
and the proxy is enabled, the discovery address written to the bootstrap
does not point at a port on which `startPilot` starts the discovery
service. -/
theorem discovery_address_not_pilot_port :
    ¬ discoveryAddressMatches (startAll sampleExt okOutcomes emptyEnv true).1 := by
  intro h
  have hcfg : envoyConfig sampleExt ∈
      (startAll sampleExt okOutcomes emptyEnv true).1.filterMap
        Event.bootstrapConfig := by
    simp [startAll, startPilot, startMixer, startEnvoy, okOutcomes,
      Event.bootstrapConfig]
  have hargs : pilotArgs sampleExt emptyEnv ∈
      (startAll sampleExt okOutcomes emptyEnv true).1.filterMap
        Event.serverArgs := by
    simp [startAll, startPilot, startMixer, startEnvoy, okOutcomes,
      Event.serverArgs]
  have hp := h _ hcfg _ hargs
  revert hp
  decide

/-- C8, amended: in every run `startEnvoy` writes the bootstrap with the
fixed discovery address `localhost:8080`, whose host is the local host and
whose port is 8080; `startPilot` starts the discovery service with HTTP port
15007 and gRPC address `:15010`; so the port of the discovery address is a
fixed one, not one of the ports handed to the discovery service. -/
theorem discovery_address_fixed (x : Ext) (o : Outcomes) (env : Env) :
    ((startEnvoy x o).1.filterMap Event.bootstrapConfig).map
        (fun cfg => (cfg.DiscoveryAddress, addrHost cfg.DiscoveryAddress,
          addrPort cfg.DiscoveryAddress)) =
      [("localhost:8080", some "localhost", some 8080)] ∧
    ((startPilot x o env).1.filterMap Event.serverArgs).map
        (fun args => (args.DiscoveryOptions.Port,
          addrPort args.DiscoveryOptions.GrpcAddr)) =
      [(15007, some 15010)] ∧
    (∀ cfg ∈ (startEnvoy x o).1.filterMap Event.bootstrapConfig,
      ∀ args ∈ (startPilot x o env).1.filterMap Event.serverArgs,
        pointsAtDiscovery cfg args = false) := by
  have hh : addrHost "localhost:8080" = some "localhost" := by decide
  have hp : addrPort "localhost:8080" = some 8080 := by decide
  have hg : addrPort ":15010" = some 15010 := by decide
  have hE : (startEnvoy x o).1.filterMap Event.bootstrapConfig =
      [envoyConfig x] := by
    obtain ⟨ns, ss, nm, nh, wb, oc, rp⟩ := o
    cases wb <;> simp [startEnvoy, Event.bootstrapConfig]
  have hP : (startPilot x o env).1.filterMap Event.serverArgs =
      [pilotArgs x env] := by
    obtain ⟨ns, ss, nm, nh, wb, oc, rp⟩ := o
    cases ns <;> cases ss <;> simp [startPilot, Event.serverArgs]
  have hc : (envoyConfig x).DiscoveryAddress = "localhost:8080" := rfl
  have ha : (pilotArgs x env).DiscoveryOptions =
      { Port := 15007, GrpcAddr := ":15010", EnableCaching := true,
        EnableProfiling := true } := by
    simp only [pilotArgs]
    split <;> rfl
  refine ⟨?_, ?_, ?_⟩
  · simp [hE, hc, hh, hp]
  · simp [hP, ha, hg]
  · intro cfg hcfg args hargs
    rw [hE] at hcfg
    rw [hP] at hargs
    simp only [List.mem_singleton] at hcfg hargs
    subst hcfg hargs
    simp [pointsAtDiscovery, hc, ha, hh, hp, hg]

/-- The log lines of `startAll`: in every run exactly the one of
`startPilot`. -/
theorem startAll_log_lines (x : Ext) (o : Outcomes) (env : Env)
    (runEnvoy : Bool) :
    (startAll x o env runEnvoy).1.filter Event.writesLog =
      [.logPrintln ["Using mock configs: ", (pilotArgs x env).Config.FileDir]] := by
  obtain ⟨ns, ss, nm, nh, wb, oc, rp⟩ := o
  cases ns <;> cases ss <;> cases nm <;> cases nh <;> cases wb <;>
    cases runEnvoy <;>
    simp [startAll, startPilot, startMixer, startEnvoy, Event.writesLog]

/-- No event of `startAll` ends the process. -/
theorem startAll_no_exit (x : Ext) (o : Outcomes) (env : Env)
    (runEnvoy : Bool) :
    (startAll x o env runEnvoy).1.filterMap Event.exitCode = [] := by
  obtain ⟨ns, ss, nm, nh, wb, oc, rp⟩ := o
  cases ns <;> cases ss <;> cases nm <;> cases nh <;> cases wb <;>
    cases runEnvoy <;>
    simp [startAll, startPilot, startMixer, startEnvoy, Event.exitCode]

/-- The output of `startAll` when every external call succeeds. -/
theorem startAll_output_of_success (x : Ext) (o : Outcomes) (env : Env)
    (runEnvoy : Bool) (h : o.allSucceed = true) :
    (startAll x o env runEnvoy).2 = none ∧
    (startAll x o env runEnvoy).1.filterMap Event.output =
      [.logLine ["Using mock configs: ", (pilotArgs x env).Config.FileDir],
        .stdoutPrinter] := by
  obtain ⟨ns, ss, nm, nh, wb, oc, rp⟩ := o
  cases ns <;> cases ss <;> cases nm <;> cases nh <;> cases wb <;>
    cases oc <;> cases rp <;> simp [Outcomes.allSucceed, succeeded] at h
  cases runEnvoy <;>
    simp [startAll, startPilot, startMixer, startEnvoy, Event.output]

/-- C9, as stated, fails: in the run in which every external call succeeds
neither `startAll` nor `main` is silent, since `startPilot` writes a log
line and `startMixer` starts the printer of mixer reports. -/
theorem successful_run_not_silent :
    okOutcomes.allSucceed = true ∧
    ¬ silent (startAll sampleExt okOutcomes emptyEnv true).1 ∧
    ¬ silent (main sampleExt okOutcomes emptyEnv true) ∧
    Event.logPrintln ["Using mock configs: ",
        "/go/src/istio.io/istio/tests/testdata/config"] ∈
      (startAll sampleExt okOutcomes emptyEnv true).1 := by
  refine ⟨rfl, ?_, ?_, ?_⟩
  · simp [silent, startAll, startPilot, startMixer, startEnvoy, okOutcomes,
      Event.output]
  · simp [silent, main, startAll, startPilot, startMixer, startEnvoy,
      okOutcomes, Event.output]
  · decide

/-- The first calls of `startPilot` and of `startAll`, in every run: the
walk interval, the environment lookup, the log line, then
`bootstrap.NewServer`. -/
theorem first_calls (x : Ext) (o : Outcomes) (env : Env) (runEnvoy : Bool) :
    (startPilot x o env).1.take 4 =
      [ .setFilepathWalkInterval (5 * Second)
      , .getenv "ISTIO_CONFIG"
      , .logPrintln ["Using mock configs: ", (pilotArgs x env).Config.FileDir]
      , .newServer (pilotArgs x env) ] ∧
    (startAll x o env runEnvoy).1.take 4 =
      [ .setFilepathWalkInterval (5 * Second)
      , .getenv "ISTIO_CONFIG"
      , .logPrintln ["Using mock configs: ", (pilotArgs x env).Config.FileDir]
      , .newServer (pilotArgs x env) ] := by
  obtain ⟨ns, ss, nm, nh, wb, oc, rp⟩ := o
  constructor
  · cases ns <;> cases ss <;> simp [startPilot]
  · cases ns <;> cases ss <;> cases nm <;> cases nh <;> cases wb <;>
      cases runEnvoy <;>
      simp [startAll, startPilot, startMixer, startEnvoy]

/-- The calls of `bootstrap.NewServer` in a trace of `startAll`: exactly
one in every run. -/
theorem startAll_newServer_once (x : Ext) (o : Outcomes) (env : Env)
    (runEnvoy : Bool) :
    (startAll x o env runEnvoy).1.filterMap Event.serverArgs =
      [pilotArgs x env] := by
  obtain ⟨ns, ss, nm, nh, wb, oc, rp⟩ := o
  cases ns <;> cases ss <;> cases nm <;> cases nh <;> cases wb <;>
    cases runEnvoy <;>
    simp [startAll, startPilot, startMixer, startEnvoy, Event.serverArgs]

/-- C9, amended: in every run `startPilot` writes one log line, the words
`Using mock configs: ` and the configuration directory, immediately before
its only call of `bootstrap.NewServer` (the third and fourth events of the
run), and `startAll` writes no other.  When every external call succeeds
this line is the only log line of `main` up to the signal wait, the only
writer to standard output is the report printer that `startMixer` spawns,
and `main` does not exit but, after `startAll`, waits for a signal.  When
`startAll` returns an error, `main` writes, after everything `startAll`
did, one more log line, `Failed to start ` and the error, and exits with
status 1. -/
theorem main_output (x : Ext) (o : Outcomes) (env : Env) (runEnvoy : Bool) :
    (startAll x o env runEnvoy).1.filter Event.writesLog =
      [.logPrintln ["Using mock configs: ", (pilotArgs x env).Config.FileDir]] ∧
    (startPilot x o env).1.take 4 =
      [ .setFilepathWalkInterval (5 * Second)
      , .getenv "ISTIO_CONFIG"
      , .logPrintln ["Using mock configs: ", (pilotArgs x env).Config.FileDir]
      , .newServer (pilotArgs x env) ] ∧
    (startAll x o env runEnvoy).1.take 4 =
      [ .setFilepathWalkInterval (5 * Second)
      , .getenv "ISTIO_CONFIG"
      , .logPrintln ["Using mock configs: ", (pilotArgs x env).Config.FileDir]
      , .newServer (pilotArgs x env) ] ∧
    (startAll x o env runEnvoy).1.filterMap Event.serverArgs =
      [pilotArgs x env] ∧
    (o.allSucceed = true →
      (main x o env runEnvoy).filterMap Event.output =
        [.logLine ["Using mock configs: ", (pilotArgs x env).Config.FileDir],
          .stdoutPrinter] ∧
      (main x o env runEnvoy).filterMap Event.exitCode = [] ∧
      (main x o env runEnvoy).getLast? = some .waitSignal ∧
      main x o env runEnvoy =
        [.flagParse] ++ (startAll x o env runEnvoy).1 ++
          [.signalNotify ["SIGINT", "SIGTERM"], .waitSignal]) ∧
    (∀ e, (startAll x o env runEnvoy).2 = some e →
      (main x o env runEnvoy).filter Event.writesLog =
        [.logPrintln ["Using mock configs: ", (pilotArgs x env).Config.FileDir],
          .logFatal ["Failed to start ", e.msg]] ∧
      (main x o env runEnvoy).filterMap Event.exitCode = [1] ∧
      (main x o env runEnvoy).getLast? = some (.exit 1) ∧
      main x o env runEnvoy =
        [.flagParse] ++ (startAll x o env runEnvoy).1 ++
          [.logFatal ["Failed to start ", e.msg], .exit 1]) := by
  have hlog := startAll_log_lines x o env runEnvoy
  have hexit := startAll_no_exit x o env runEnvoy
  have hlast : ∀ (t : Trace) (a b : Event),
      ([Event.flagParse] ++ t ++ [a, b]).getLast? = some b := by
    intro t a b
    have hsplit : [Event.flagParse] ++ t ++ [a, b] =
        ([Event.flagParse] ++ t ++ [a]) ++ [b] := by simp
    rw [hsplit, List.getLast?_concat]
  have hx1 : Event.exitCode .flagParse = none := rfl
  have hx2 : ∀ l, Event.exitCode (.signalNotify l) = none := fun _ => rfl
  have hx3 : Event.exitCode .waitSignal = none := rfl
  have hx4 : ∀ l, Event.exitCode (.logFatal l) = none := fun _ => rfl
  have hx5 : ∀ c, Event.exitCode (.exit c) = some c := fun _ => rfl
  refine ⟨hlog, (first_calls x o env runEnvoy).1, (first_calls x o env runEnvoy).2,
    startAll_newServer_once x o env runEnvoy, ?_, ?_⟩
  · intro h
    obtain ⟨hnone, hout⟩ := startAll_output_of_success x o env runEnvoy h
    unfold main
    generalize startAll x o env runEnvoy = r at hnone hout hexit
    obtain ⟨t, _ | err⟩ := r
    · simp only at hout hexit
      refine ⟨?_, ?_, hlast t _ _, rfl⟩
      · simp [List.filterMap_append, hout, Event.output]
      · simp only [List.filterMap_append, hexit, List.filterMap_cons, hx1, hx2,
          hx3, List.filterMap_nil, List.append_nil]
    · simp at hnone
  · intro e he
    unfold main
    generalize startAll x o env runEnvoy = r at he hlog hexit
    obtain ⟨t, _ | err⟩ := r
    · simp at he
    · simp only [Option.some.injEq] at he hlog hexit
      subst he
      refine ⟨?_, ?_, hlast t _ _, rfl⟩
      · simp [List.filter_append, hlog, Event.writesLog]
      · simp only [List.filterMap_append, hexit, List.filterMap_cons, hx1, hx4,
          hx5, List.filterMap_nil, List.append_nil, List.nil_append]

/-- C9, amended, at a successful run and at a run in which the discovery
service cannot be created. -/
theorem main_output_witness :
    ((main sampleExt okOutcomes emptyEnv true).filterMap Event.output =
        [.logLine ["Using mock configs: ",
            (pilotArgs sampleExt emptyEnv).Config.FileDir], .stdoutPrinter] ∧
      (main sampleExt okOutcomes emptyEnv true).filterMap Event.exitCode = [] ∧
      (main sampleExt okOutcomes emptyEnv true).getLast? = some .waitSignal ∧
      main sampleExt okOutcomes emptyEnv true =
        [.flagParse] ++ (startAll sampleExt okOutcomes emptyEnv true).1 ++
          [.signalNotify ["SIGINT", "SIGTERM"], .waitSignal]) ∧
    ((main sampleExt newServerFails emptyEnv true).filter Event.writesLog =
        [.logPrintln ["Using mock configs: ",
            (pilotArgs sampleExt emptyEnv).Config.FileDir],
          .logFatal ["Failed to start ", sampleError.msg]] ∧
      (main sampleExt newServerFails emptyEnv true).filterMap Event.exitCode = [1] ∧
      (main sampleExt newServerFails emptyEnv true).getLast? = some (.exit 1) ∧
      main sampleExt newServerFails emptyEnv true =
        [.flagParse] ++ (startAll sampleExt newServerFails emptyEnv true).1 ++
          [.logFatal ["Failed to start ", sampleError.msg], .exit 1]) :=
  ⟨(main_output sampleExt okOutcomes emptyEnv true).2.2.2.2.1 rfl,
   (main_output sampleExt newServerFails emptyEnv true).2.2.2.2.2 sampleError rfl⟩

/-- C10: with `ISTIO_CONFIG` unset, the envoy flag true and every external
call succeeding, `startAll` returns no error, hands exactly one proxy
configuration to `agent.WriteBootstrap`, with `DiscoveryAddress`
`localhost:8080` and `ServiceCluster` `test`, starts the policy server on
port 9091, and starts the discovery service with HTTP port 15007 and gRPC
address `:15010`, on the built-in configuration directory. -/
theorem startAll_default_scenario (x : Ext) (o : Outcomes) (env : Env)
    (henv : env "ISTIO_CONFIG" = none) (h : o.allSucceed = true) :
    (startAll x o env true).2 = none ∧
    ((startAll x o env true).1.filterMap Event.bootstrapConfig).map
        (fun cfg => (cfg.DiscoveryAddress, cfg.ServiceCluster)) =
      [("localhost:8080", "test")] ∧
    (startAll x o env true).1.filterMap Event.mixerPort = [9091] ∧
    ((startAll x o env true).1.filterMap Event.serverArgs).map
        (fun args => (args.DiscoveryOptions.Port, args.DiscoveryOptions.GrpcAddr,
          args.Config.FileDir)) =
      [(15007, ":15010", x.IstioSrc ++ "/tests/testdata/config")] ∧
    ((startAll x o env true).1.filterMap Event.starts).take 2 =
      [.discovery, .policy] := by
  obtain ⟨ns, ss, nm, nh, wb, oc, rp⟩ := o
  cases ns <;> cases ss <;> cases nm <;> cases nh <;> cases wb <;>
    cases oc <;> cases rp <;> simp [Outcomes.allSucceed, succeeded] at h
  simp [startAll, startPilot, startMixer, startEnvoy, Event.bootstrapConfig,
    Event.mixerPort, Event.serverArgs, Event.starts, envoyConfig, pilotArgs,
    osGetenv, henv]

/-- C10 at the empty environment and the run in which every call succeeds. -/
theorem startAll_default_scenario_witness :
    emptyEnv "ISTIO_CONFIG" = none ∧ okOutcomes.allSucceed = true ∧
    (startAll sampleExt okOutcomes emptyEnv true).2 = none ∧
    ((startAll sampleExt okOutcomes emptyEnv true).1.filterMap
        Event.bootstrapConfig).map
        (fun cfg => (cfg.DiscoveryAddress, cfg.ServiceCluster)) =
      [("localhost:8080", "test")] ∧
    (startAll sampleExt okOutcomes emptyEnv true).1.filterMap Event.mixerPort =
      [9091] :=
  ⟨rfl, rfl, (startAll_default_scenario sampleExt okOutcomes emptyEnv rfl rfl).1,
   (startAll_default_scenario sampleExt okOutcomes emptyEnv rfl rfl).2.1,
   (startAll_default_scenario sampleExt okOutcomes emptyEnv rfl rfl).2.2.1⟩

/-- C3 at the run in which every call succeeds: the start of the discovery
server is in the trace with the flag false and is not a proxy call. -/
theorem startAll_envoy_disabled_witness :
    Event.isProxyCall .serverStart = false ∧
    (startAll sampleExt okOutcomes emptyEnv false).1 =
      (startAll sampleExt okOutcomes emptyEnv true).1.filter
        (fun ev => decide (ev.step ≠ .envoy)) :=
  ⟨(startAll_envoy_disabled sampleExt okOutcomes emptyEnv).1 .serverStart
      (by decide),
   (startAll_envoy_disabled sampleExt okOutcomes emptyEnv).2.1⟩

/-- C4 at the run in which every call succeeds: the configuration handed to
the bootstrap write by `startEnvoy` has the three durations. -/
theorem startEnvoy_durations_fixed_witness :
    (envoyConfig sampleExt).DiscoveryRefreshDelay =
      some { Seconds := 10, Nanos := 0 } ∧
    (envoyConfig sampleExt).ConnectTimeout = some { Seconds := 5, Nanos := 0 } ∧
    (envoyConfig sampleExt).DrainDuration = some { Seconds := 30, Nanos := 0 } ∧
    setAndNonZero (envoyConfig sampleExt).DiscoveryRefreshDelay = true ∧
    setAndNonZero (envoyConfig sampleExt).ConnectTimeout = true ∧
    setAndNonZero (envoyConfig sampleExt).DrainDuration = true :=
  (startEnvoy_durations_fixed sampleExt okOutcomes emptyEnv true).1
    (startEnvoy sampleExt okOutcomes).1 (by decide)
    (.writeBootstrap (envoyConfig sampleExt) "sidecar~127.0.0.2~a~a" 1 [])
    (by decide) (envoyConfig sampleExt) rfl

/-- C8, amended, at the run in which every call succeeds. -/
theorem discovery_address_fixed_witness :
    pointsAtDiscovery (envoyConfig sampleExt) (pilotArgs sampleExt emptyEnv) =
      false :=
  (discovery_address_fixed sampleExt okOutcomes emptyEnv).2.2
    (envoyConfig sampleExt) (by decide) (pilotArgs sampleExt emptyEnv)
    (by decide)

end Hyperistio
